import Mathlib

set_option autoImplicit false

/-!
Shallow embedding of the tenant-resolution middleware: subdomain
extraction, subdomain validation, the TTL-bounded tenant cache, the
tenant lookup service, the tenant-context setter, and the resolution
orchestrator, together with theorems settling the specification claims.

Remote calls (the two stored-procedure endpoints of the backing store)
are modelled by passing their outcome as an explicit parameter; the
process-wide cache is modelled by explicit state passing; timestamps are
naturals (milliseconds).
-/

/-- A row as returned by the remote `get_tenant_by_subdomain` endpoint. -/
structure TenantRow where
  tenant_id : String
  tenant_name : String
  tenant_status : String
  tenant_settings : Option (List (String × String))
deriving DecidableEq, Repr

/-- The tenant information object built by the lookup service and
returned to callers (and stored in the cache). -/
structure TenantInfo where
  id : String
  subdomain : String
  name : String
  status : String
  settings : List (String × String)
deriving DecidableEq, Repr

/-- A structured error object with stable code, human message and
descriptive details. -/
structure ErrObj where
  code : String
  message : String
  details : String
deriving DecidableEq, Repr

/-- The result shape of `resolveTenant` when called without a `next`
callback: `\x7b tenant, error \x7d`. -/
structure ResolveResult where
  tenant : Option TenantInfo
  error : Option ErrObj
deriving DecidableEq, Repr

/-- One entry of the tenant cache: the cached value (an active tenant
record, or `none` for a confirmed not-found) and its fetch timestamp. -/
structure CacheEntry where
  data : Option TenantInfo
  timestamp : Nat
deriving DecidableEq, Repr

/-- The tenant cache (the JS `Map`), as an association list keyed by the
cache-key string. -/
abbrev Cache := List (String × CacheEntry)

/-- `Map.prototype.get`. -/
def cacheGet : Cache → String → Option CacheEntry
  | [], _ => none
  | (k, e) :: rest, key => if k = key then some e else cacheGet rest key

/-- `Map.prototype.set`: overwrites any prior entry for the key. -/
def cacheSet (cache : Cache) (key : String) (e : CacheEntry) : Cache :=
  (key, e) :: cache.filter (fun p => p.1 ≠ key)

/-- Outcome of the remote `get_tenant_by_subdomain` call, were it to be
issued: a resolved response with a truthy `error` field, a thrown
exception / rejected promise, or a resolved `data` payload (JS `null`
data modelled as `none`). -/
inductive LookupResult where
  | err : LookupResult
  | thrown : LookupResult
  | ok : Option (List TenantRow) → LookupResult
deriving DecidableEq, Repr

/-- Outcome of the remote `set_tenant_context` call, were it to be
issued. -/
inductive CtxResult where
  | ok : CtxResult
  | err : CtxResult
  | thrown : CtxResult
deriving DecidableEq, Repr

/-- The HTTP request fields the middleware reads. A header that is
absent is `none`; JS treats the empty string as falsy, which the
embedding spells out where the code tests truthiness. -/
structure Request where
  host : Option String
  xForwardedHost : Option String
  queryTenant : Option String
deriving DecidableEq, Repr

/-- JS `a || b` on (possibly absent) strings: `a` unless it is absent or
empty. -/
def jsOrStr (a b : Option String) : Option String :=
  match a with
  | none => b
  | some s => if s = "" then b else some s

/-- JS truthiness of a string-or-null value. -/
def jsTruthy : Option String → Bool
  | none => false
  | some s => s ≠ ""

/-- Split a character list at every occurrence of `sep`; the JS
`String.prototype.split` with a one-character separator. -/
def splitOnChar (sep : Char) : List Char → List (List Char)
  | [] => [[]]
  | c :: rest =>
    match splitOnChar sep rest with
    | [] => [[]]
    | g :: gs => if c = sep then [] :: g :: gs else (c :: g) :: gs

/-- JS `String.prototype.split` with a one-character separator. -/
def strSplit (s : String) (sep : Char) : List String :=
  (splitOnChar sep s.data).map String.mk

/-- JS `String.prototype.toLowerCase` (ASCII range, which is all the
code compares against). -/
def strToLower (s : String) : String :=
  String.mk (s.data.map Char.toLower)

/-- JS `String.prototype.includes`: does `pat` occur as a contiguous
substring of `s`? -/
def strContains (s pat : String) : Bool :=
  (List.range (s.length + 1)).any (fun i => List.isPrefixOf pat.data (s.data.drop i))

/-- JS `String.prototype.indexOf` for a single character: first index,
or `-1` when absent. -/
def jsIndexOfChar (s : String) (c : Char) : Int :=
  match s.data.findIdx? (fun d => d = c) with
  | some i => Int.ofNat i
  | none => -1

/-- JS `String.prototype.substring(0, n)`. -/
def strTake (s : String) (n : Nat) : String :=
  String.mk (s.data.take n)

/-- The extractor's exclusion set of common non-tenant subdomains. -/
def exclusionSet : List String := ["www", "api", "admin", "app"]

/-- `extractSubdomain(req)`: candidate tenant identifier from the host
header (falling back to the forwarded-host header), with the
development-mode rules for localhost/loopback hosts, or `none`. -/
def extractSubdomain (req : Request) : Option String :=
  let host := jsOrStr req.host req.xForwardedHost
  match host with
  | none => none
  | some h =>
    if h = "" then none
    else
      let hostname := (strSplit h ':').headD ""
      let parts := strSplit hostname '.'
      if strContains hostname "localhost" || strContains hostname "127.0.0.1" then
        let dashIndex := jsIndexOfChar hostname '-'
        if 0 < dashIndex then some (strTake hostname dashIndex.toNat)
        else jsOrStr req.queryTenant (some "demo")
      else if 3 ≤ parts.length then
        let subdomain := parts.headD ""
        if exclusionSet.contains (strToLower subdomain) then none
        else some subdomain
      else none

/-- An ASCII alphanumeric character, as matched case-insensitively by
the character class `[a-z0-9]` under the `i` flag. -/
def isAlnumChar (c : Char) : Bool :=
  (('a' ≤ c && c ≤ 'z') || ('A' ≤ c && c ≤ 'Z') || ('0' ≤ c && c ≤ '9'))

/-- The test of `/^[a-z0-9]([a-z0-9-]*[a-z0-9])?$/i`: nonempty, first
and last characters alphanumeric, interior characters alphanumeric or
hyphen. -/
def subdomainRegexTest (s : String) : Bool :=
  match s.data with
  | [] => false
  | c :: rest =>
    isAlnumChar c && rest.all (fun d => isAlnumChar d || d = '-')
      && isAlnumChar (rest.getLastD c)

/-- The validator's reserved subdomains. -/
def reservedSubdomains : List String :=
  ["www", "api", "admin", "app", "mail", "ftp", "blog",
   "support", "help", "docs", "status", "cdn", "assets"]

/-- `isValidSubdomain(subdomain)`: length 2–50, matches the subdomain
pattern, and is not a reserved word (case-insensitively). -/
def isValidSubdomain (subdomain : String) : Bool :=
  if subdomain = "" then false
  else if subdomain.length < 2 || 50 < subdomain.length then false
  else if !subdomainRegexTest subdomain then false
  else if reservedSubdomains.contains (strToLower subdomain) then false
  else true

/-- The cache TTL: 5 minutes, in milliseconds. -/
def CACHE_TTL : Nat := 5 * 60 * 1000

/-- The cache key used for a subdomain. -/
def cacheKeyOf (subdomain : String) : String := "tenant:" ++ subdomain

/-- The tenant information object prepared from a remote row (JS falsy
`tenant_settings` defaults to the empty object). -/
def mkTenantInfo (subdomain : String) (t : TenantRow) : TenantInfo :=
  { id := t.tenant_id
    subdomain := subdomain
    name := t.tenant_name
    status := t.tenant_status
    settings := t.tenant_settings.getD [] }

/-- The body of `getTenantInfo` past the cache check: issue the remote
lookup and handle its outcome, caching where the code caches. Returns
the value produced together with the cache state after the call. -/
def getTenantInfoFetch (subdomain : String) (remote : LookupResult)
    (cache : Cache) (now : Nat) : Option TenantInfo × Cache :=
  match remote with
  | .err => (none, cache)
  | .thrown => (none, cache)
  | .ok none => (none, cacheSet cache (cacheKeyOf subdomain) ⟨none, now⟩)
  | .ok (some []) => (none, cacheSet cache (cacheKeyOf subdomain) ⟨none, now⟩)
  | .ok (some (t :: _)) =>
    if t.tenant_status ≠ "active" then (none, cache)
    else
      let tenantInfo := mkTenantInfo subdomain t
      (some tenantInfo, cacheSet cache (cacheKeyOf subdomain) ⟨some tenantInfo, now⟩)

/-- `getTenantInfo(subdomain)`: serve a fresh cache entry, otherwise
fetch from the remote. `remote` is the outcome the remote lookup would
produce if issued; `now` the current time. -/
def getTenantInfo (subdomain : String) (remote : LookupResult)
    (cache : Cache) (now : Nat) : Option TenantInfo × Cache :=
  match cacheGet cache (cacheKeyOf subdomain) with
  | some cached =>
    if now - cached.timestamp < CACHE_TTL then (cached.data, cache)
    else getTenantInfoFetch subdomain remote cache now
  | none => getTenantInfoFetch subdomain remote cache now

/-- `getTenantInfo` instrumented with the number of remote calls it
issues (0 on a fresh cache hit, 1 otherwise), for the cache-idempotence
properties. -/
def getTenantInfoCalls (subdomain : String) (remote : LookupResult)
    (cache : Cache) (now : Nat) : (Option TenantInfo × Cache) × Nat :=
  match cacheGet cache (cacheKeyOf subdomain) with
  | some cached =>
    if now - cached.timestamp < CACHE_TTL then ((cached.data, cache), 0)
    else (getTenantInfoFetch subdomain remote cache now, 1)
  | none => (getTenantInfoFetch subdomain remote cache now, 1)

/-- `setTenantContext(tenantId)`: succeeds when the remote call does; a
truthy `error` field or a thrown exception is re-raised to the caller
(modelled as `Except.error`). -/
def setTenantContext (remote : CtxResult) : Except Unit Unit :=
  match remote with
  | .ok => Except.ok ()
  | .err => Except.error ()
  | .thrown => Except.error ()

/-- The error object for a missing candidate subdomain. -/
def invalidSubdomainError : ErrObj :=
  { code := "INVALID_SUBDOMAIN"
    message := "No valid subdomain found in request"
    details := "Please access the application using a valid tenant subdomain (e.g., acme.yourapp.com)" }

/-- The error object for a malformed candidate subdomain. -/
def invalidFormatError : ErrObj :=
  { code := "INVALID_SUBDOMAIN_FORMAT"
    message := "Invalid subdomain format"
    details := "Subdomain must be 2-50 characters, alphanumeric with hyphens allowed" }

/-- The error object for a missing or inactive tenant. -/
def tenantNotFoundError (subdomain : String) : ErrObj :=
  { code := "TENANT_NOT_FOUND"
    message := "Tenant not found or inactive"
    details := "No active tenant found for subdomain: " ++ subdomain }

/-- The error object produced by the orchestrator's outer catch. -/
def tenantResolutionError : ErrObj :=
  { code := "TENANT_RESOLUTION_ERROR"
    message := "Error resolving tenant"
    details := "An internal error occurred while resolving tenant information" }

/-- `resolveTenant(req)` called without a `next` callback: extract →
validate → lookup → set-context, every failure converted to a structured
error. `lookupRemote` and `ctxRemote` are the outcomes the two remote
calls would produce if issued. Returns the result together with the
cache state after the call. -/
def resolveTenant (req : Request) (lookupRemote : LookupResult)
    (ctxRemote : CtxResult) (cache : Cache) (now : Nat) :
    ResolveResult × Cache :=
  let sub := extractSubdomain req
  if !jsTruthy sub then
    ({ tenant := none, error := some invalidSubdomainError }, cache)
  else
    let subdomain := sub.getD ""
    if !isValidSubdomain subdomain then
      ({ tenant := none, error := some invalidFormatError }, cache)
    else
      match getTenantInfo subdomain lookupRemote cache now with
      | (none, cache') =>
        ({ tenant := none, error := some (tenantNotFoundError subdomain) }, cache')
      | (some tenant, cache') =>
        match setTenantContext ctxRemote with
        | Except.error _ =>
          ({ tenant := none, error := some tenantResolutionError }, cache')
        | Except.ok _ =>
          ({ tenant := some tenant, error := none }, cache')

/-- Well-formedness of the cache: every cached record is active (the
only records the lookup service ever stores). -/
def cacheWF (cache : Cache) : Bool :=
  cache.all (fun p =>
    match p.2.data with
    | none => true
    | some t => t.status = "active")

/-- Freshness of the cache entry for a key at time `now` (the condition
under which `getTenantInfo` serves the cache without a remote call). -/
def cacheFresh (cache : Cache) (key : String) (now : Nat) : Bool :=
  match cacheGet cache key with
  | some e => now - e.timestamp < CACHE_TTL
  | none => false

example : extractSubdomain ⟨some "acme.example.com", none, none⟩ = some "acme" := by decide
example : extractSubdomain ⟨some "www.example.com", none, none⟩ = none := by decide
example : extractSubdomain ⟨some "app.localhost.com", none, none⟩ = some "demo" := by decide
example : extractSubdomain ⟨some "tenant-localhost:3000", none, none⟩ = some "tenant" := by decide
example : extractSubdomain ⟨some ".example.com", none, none⟩ = some "" := by decide
example : extractSubdomain ⟨some "example.com", none, none⟩ = none := by decide
example : isValidSubdomain "acme" = true := by decide
example : isValidSubdomain "-ab" = false := by decide
example : isValidSubdomain "ab-" = false := by decide
example : isValidSubdomain "WWW" = false := by decide
example : isValidSubdomain "a" = false := by decide

/-- The stable error codes the orchestrator can produce. -/
def errorCodes : List String :=
  ["INVALID_SUBDOMAIN", "INVALID_SUBDOMAIN_FORMAT",
   "TENANT_NOT_FOUND", "TENANT_RESOLUTION_ERROR"]

/-- Appending to a non-empty string yields a non-empty string. -/
theorem append_ne_empty_left (p s : String) (hp : p.data ≠ []) : p ++ s ≠ "" := by
  intro h
  have hd : p.data ++ s.data = ([] : List Char) := congrArg String.data h
  exact hp (List.append_eq_nil.mp hd).1

/-- C1: `resolveTenant` (without a `next` callback) always returns
exactly one of `tenant` and `error` non-null — never both, never
neither — and never throws: every failure mode, including failing or
throwing remote calls, becomes a structured error object whose `code`
is one of the stable codes and whose `message` and `details` are
non-empty. -/
theorem resolveTenant_exactly_one_outcome
    (req : Request) (lookupRemote : LookupResult) (ctxRemote : CtxResult)
    (cache : Cache) (now : Nat) :
    ((resolveTenant req lookupRemote ctxRemote cache now).1.tenant = none ∧
      ∃ e, (resolveTenant req lookupRemote ctxRemote cache now).1.error = some e ∧
        e.code ∈ errorCodes ∧ e.message ≠ "" ∧ e.details ≠ "") ∨
    ((∃ t, (resolveTenant req lookupRemote ctxRemote cache now).1.tenant = some t) ∧
      (resolveTenant req lookupRemote ctxRemote cache now).1.error = none) := by
  simp only [resolveTenant]
  split
  · exact Or.inl ⟨rfl, invalidSubdomainError, rfl, by decide⟩
  · split
    · exact Or.inl ⟨rfl, invalidFormatError, rfl, by decide⟩
    · split
      · refine Or.inl ⟨rfl, tenantNotFoundError _, rfl, ?_, ?_, ?_⟩
        · show "TENANT_NOT_FOUND" ∈ errorCodes
          decide
        · show ("Tenant not found or inactive" : String) ≠ ""
          decide
        · exact append_ne_empty_left _ _ (by decide)
      · split
        · exact Or.inl ⟨rfl, tenantResolutionError, rfl, by decide⟩
        · exact Or.inr ⟨⟨_, rfl⟩, rfl⟩

/-- Reading back the key just written returns the new entry. -/
theorem cacheGet_cacheSet (cache : Cache) (key : String) (e : CacheEntry) :
    cacheGet (cacheSet cache key e) key = some e := by
  simp [cacheGet, cacheSet]

/-- With no fresh entry for the key, `getTenantInfo` takes the fetch
path. -/
theorem getTenantInfo_of_not_fresh (subdomain : String) (remote : LookupResult)
    (cache : Cache) (now : Nat)
    (hmiss : cacheFresh cache (cacheKeyOf subdomain) now = false) :
    getTenantInfo subdomain remote cache now
      = getTenantInfoFetch subdomain remote cache now := by
  unfold cacheFresh at hmiss
  unfold getTenantInfo
  cases hget : cacheGet cache (cacheKeyOf subdomain) with
  | none => rfl
  | some e =>
    rw [hget] at hmiss
    simp only [decide_eq_false_iff_not] at hmiss
    simp [hmiss]

/-- With a fresh entry for the key, `getTenantInfo` serves the cache
unchanged. -/
theorem getTenantInfo_of_fresh (subdomain : String) (remote : LookupResult)
    (cache : Cache) (now : Nat) (e : CacheEntry)
    (hget : cacheGet cache (cacheKeyOf subdomain) = some e)
    (hfresh : now - e.timestamp < CACHE_TTL) :
    getTenantInfo subdomain remote cache now = (e.data, cache) := by
  unfold getTenantInfo
  simp [hget, hfresh]

/-- The instrumented lookup computes the same value and cache as the
plain one. -/
theorem getTenantInfoCalls_fst (subdomain : String) (remote : LookupResult)
    (cache : Cache) (now : Nat) :
    (getTenantInfoCalls subdomain remote cache now).1
      = getTenantInfo subdomain remote cache now := by
  unfold getTenantInfoCalls getTenantInfo
  cases cacheGet cache (cacheKeyOf subdomain) with
  | none => rfl
  | some e => by_cases hf : now - e.timestamp < CACHE_TTL <;> simp [hf]

/-- A single lookup issues at most one remote call. -/
theorem getTenantInfoCalls_count_le_one (subdomain : String) (remote : LookupResult)
    (cache : Cache) (now : Nat) :
    (getTenantInfoCalls subdomain remote cache now).2 ≤ 1 := by
  unfold getTenantInfoCalls
  cases cacheGet cache (cacheKeyOf subdomain) with
  | none => simp
  | some e => by_cases hf : now - e.timestamp < CACHE_TTL <;> simp [hf]

/-- With no fresh entry, the instrumented lookup fetches and counts one
remote call. -/
theorem getTenantInfoCalls_of_not_fresh (subdomain : String) (remote : LookupResult)
    (cache : Cache) (now : Nat)
    (hmiss : cacheFresh cache (cacheKeyOf subdomain) now = false) :
    getTenantInfoCalls subdomain remote cache now
      = (getTenantInfoFetch subdomain remote cache now, 1) := by
  unfold cacheFresh at hmiss
  unfold getTenantInfoCalls
  cases hget : cacheGet cache (cacheKeyOf subdomain) with
  | none => rfl
  | some e =>
    rw [hget] at hmiss
    simp only [decide_eq_false_iff_not] at hmiss
    simp [hmiss]

/-- With a fresh entry, the instrumented lookup serves the cache and
counts no remote call. -/
theorem getTenantInfoCalls_of_fresh (subdomain : String) (remote : LookupResult)
    (cache : Cache) (now : Nat) (e : CacheEntry)
    (hget : cacheGet cache (cacheKeyOf subdomain) = some e)
    (hfresh : now - e.timestamp < CACHE_TTL) :
    getTenantInfoCalls subdomain remote cache now = ((e.data, cache), 0) := by
  unfold getTenantInfoCalls
  simp [hget, hfresh]

/-- C3: when the remote lookup fails (error response or exception) and
the lookup is actually issued (no fresh cache entry), `getTenantInfo`
returns nothing and leaves the cache exactly as it was. -/
theorem getTenantInfo_remote_failure_no_cache_write
    (subdomain : String) (remote : LookupResult) (cache : Cache) (now : Nat)
    (hfail : remote = LookupResult.err ∨ remote = LookupResult.thrown)
    (hmiss : cacheFresh cache (cacheKeyOf subdomain) now = false) :
    getTenantInfo subdomain remote cache now = (none, cache) := by
  rw [getTenantInfo_of_not_fresh subdomain remote cache now hmiss]
  rcases hfail with h | h <;> subst h <;> rfl

/-- C3 witness: a failing remote lookup on an empty cache returns
nothing and writes nothing. -/
theorem getTenantInfo_remote_failure_no_cache_write_witness :
    (LookupResult.err = LookupResult.err ∨ LookupResult.err = LookupResult.thrown) ∧
    cacheFresh [] (cacheKeyOf "ab") 0 = false ∧
    getTenantInfo "ab" LookupResult.err [] 0 = (none, []) :=
  ⟨Or.inl rfl, by decide,
    getTenantInfo_remote_failure_no_cache_write "ab" LookupResult.err [] 0
      (Or.inl rfl) (by decide)⟩

/-- C5: when the cached entry for the identifier is at least TTL old,
the lookup does not use the cached value: it behaves exactly as the
fetch path and issues one remote call. -/
theorem getTenantInfo_stale_refetches
    (subdomain : String) (remote : LookupResult) (cache : Cache) (now : Nat)
    (e : CacheEntry)
    (hget : cacheGet cache (cacheKeyOf subdomain) = some e)
    (hstale : CACHE_TTL ≤ now - e.timestamp) :
    getTenantInfo subdomain remote cache now
        = getTenantInfoFetch subdomain remote cache now ∧
    (getTenantInfoCalls subdomain remote cache now).2 = 1 := by
  have hmiss : cacheFresh cache (cacheKeyOf subdomain) now = false := by
    unfold cacheFresh
    rw [hget]
    simp only [decide_eq_false_iff_not, not_lt]
    exact hstale
  refine ⟨getTenantInfo_of_not_fresh subdomain remote cache now hmiss, ?_⟩
  rw [getTenantInfoCalls_of_not_fresh subdomain remote cache now hmiss]

/-- C5 witness: a lookup exactly TTL after the entry was fetched
re-fetches from the remote service. -/
theorem getTenantInfo_stale_refetches_witness :
    cacheGet [(cacheKeyOf "ab", CacheEntry.mk none 0)] (cacheKeyOf "ab")
        = some (CacheEntry.mk none 0) ∧
    CACHE_TTL ≤ 300000 - (CacheEntry.mk (none : Option TenantInfo) 0).timestamp ∧
    (getTenantInfo "ab" (LookupResult.ok (some []))
        [(cacheKeyOf "ab", CacheEntry.mk none 0)] 300000
      = getTenantInfoFetch "ab" (LookupResult.ok (some []))
          [(cacheKeyOf "ab", CacheEntry.mk none 0)] 300000 ∧
    (getTenantInfoCalls "ab" (LookupResult.ok (some []))
        [(cacheKeyOf "ab", CacheEntry.mk none 0)] 300000).2 = 1) :=
  ⟨by decide, by decide,
    getTenantInfo_stale_refetches "ab" (LookupResult.ok (some []))
      [(cacheKeyOf "ab", CacheEntry.mk none 0)] 300000 (CacheEntry.mk none 0)
      (by decide) (by decide)⟩

/-- C2 counterexample: a remote lookup that succeeds with a suspended
record does NOT store anything in the cache — contrary to the claim
that every successful lookup stores its result (inactive records as
"not found") before returning. Starting from the empty cache, the key
is still absent afterwards. -/
theorem getTenantInfo_inactive_not_cached_cex :
    cacheGet
        (getTenantInfo "go"
          (LookupResult.ok (some [TenantRow.mk "t2" "Go" "suspended" none])) [] 0).2
        (cacheKeyOf "go")
      = none := by decide

/-- C2 amended: when the remote lookup is issued (no fresh cache entry)
and succeeds, a null or zero-row response is cached as "not found" and
an active record is cached as that record; but a response whose record
is not active is NOT cached: the lookup returns nothing and leaves the
cache unchanged. -/
theorem getTenantInfo_caches_success
    (subdomain : String) (cache : Cache) (now : Nat)
    (data : Option (List TenantRow))
    (hmiss : cacheFresh cache (cacheKeyOf subdomain) now = false) :
    (data = none ∨ data = some [] →
      getTenantInfo subdomain (LookupResult.ok data) cache now
        = (none, cacheSet cache (cacheKeyOf subdomain) (CacheEntry.mk none now))) ∧
    (∀ t rest, data = some (t :: rest) → t.tenant_status = "active" →
      getTenantInfo subdomain (LookupResult.ok data) cache now
        = (some (mkTenantInfo subdomain t),
            cacheSet cache (cacheKeyOf subdomain)
              (CacheEntry.mk (some (mkTenantInfo subdomain t)) now))) ∧
    (∀ t rest, data = some (t :: rest) → t.tenant_status ≠ "active" →
      getTenantInfo subdomain (LookupResult.ok data) cache now = (none, cache)) := by
  rw [getTenantInfo_of_not_fresh subdomain (LookupResult.ok data) cache now hmiss]
  refine ⟨?_, ?_, ?_⟩
  · rintro (rfl | rfl) <;> rfl
  · rintro t rest rfl hact
    unfold getTenantInfoFetch
    simp [hact]
  · rintro t rest rfl hinact
    unfold getTenantInfoFetch
    simp [hinact]

/-- C2 amended witness: the three cases at concrete inputs. -/
theorem getTenantInfo_caches_success_witness :
    cacheFresh [] (cacheKeyOf "go") 0 = false ∧
    (getTenantInfo "go" (LookupResult.ok (some [])) [] 0
        = (none, cacheSet [] (cacheKeyOf "go") (CacheEntry.mk none 0))) ∧
    (getTenantInfo "go"
        (LookupResult.ok (some [TenantRow.mk "t2" "Go" "suspended" none])) [] 0
      = (none, [])) :=
  ⟨by decide,
    (getTenantInfo_caches_success "go" [] 0 (some []) (by decide)).1 (Or.inr rfl),
    (getTenantInfo_caches_success "go" [] 0
        (some [TenantRow.mk "t2" "Go" "suspended" none]) (by decide)).2.2
      (TenantRow.mk "t2" "Go" "suspended" none) [] rfl (by decide)⟩

/-- C4 counterexample: with a remote service that fails, two consecutive
lookups for the same identifier at the same instant (well within TTL)
issue two remote calls, not at most one — the failed first lookup cached
nothing. -/
theorem getTenantInfo_two_remote_calls_cex :
    ¬ ((getTenantInfoCalls "ab" LookupResult.err [] 0).2 +
        (getTenantInfoCalls "ab" LookupResult.err
          (getTenantInfoCalls "ab" LookupResult.err [] 0).1.2 0).2 ≤ 1) := by decide

/-- C4 amended: two consecutive lookups for the same identifier within
the TTL window issue at most one remote call in total, provided the
remote response (if a call is issued at all) is a success — null data,
zero rows, or an active first record. (A remote error or a non-active
record is not cached, so the second lookup would re-issue the call.) -/
theorem getTenantInfo_cache_idempotent
    (subdomain : String) (remote : LookupResult) (cache : Cache) (now₁ now₂ : Nat)
    (hwin : now₂ - now₁ < CACHE_TTL)
    (hok : remote = LookupResult.ok none ∨ remote = LookupResult.ok (some []) ∨
        ∃ t rest, remote = LookupResult.ok (some (t :: rest)) ∧
          t.tenant_status = "active") :
    (getTenantInfoCalls subdomain remote cache now₁).2 +
      (getTenantInfoCalls subdomain remote
        (getTenantInfoCalls subdomain remote cache now₁).1.2 now₂).2 ≤ 1 := by
  by_cases hf : cacheFresh cache (cacheKeyOf subdomain) now₁ = true
  · unfold cacheFresh at hf
    rcases hget : cacheGet cache (cacheKeyOf subdomain) with _ | e
    · rw [hget] at hf; simp at hf
    · rw [hget] at hf
      simp only [decide_eq_true_eq] at hf
      rw [getTenantInfoCalls_of_fresh subdomain remote cache now₁ e hget hf]
      simpa using getTenantInfoCalls_count_le_one subdomain remote cache now₂
  · rw [getTenantInfoCalls_of_not_fresh subdomain remote cache now₁
        (Bool.not_eq_true _ ▸ hf)]
    have hwrite : ∃ d, getTenantInfoFetch subdomain remote cache now₁
        = (d, cacheSet cache (cacheKeyOf subdomain) (CacheEntry.mk d now₁)) := by
      rcases hok with rfl | rfl | ⟨t, rest, rfl, hact⟩
      · exact ⟨none, rfl⟩
      · exact ⟨none, rfl⟩
      · refine ⟨some (mkTenantInfo subdomain t), ?_⟩
        unfold getTenantInfoFetch
        simp [hact]
    rcases hwrite with ⟨d, hw⟩
    rw [hw]
    have : getTenantInfoCalls subdomain remote
        (cacheSet cache (cacheKeyOf subdomain) (CacheEntry.mk d now₁)) now₂
        = ((d, cacheSet cache (cacheKeyOf subdomain) (CacheEntry.mk d now₁)), 0) :=
      getTenantInfoCalls_of_fresh subdomain remote _ now₂ (CacheEntry.mk d now₁)
        (cacheGet_cacheSet cache (cacheKeyOf subdomain) (CacheEntry.mk d now₁)) hwin
    rw [this]
    exact Nat.le_refl 1

/-- C4 amended witness: a not-found first lookup serves the second from
cache; one remote call in total. -/
theorem getTenantInfo_cache_idempotent_witness :
    (10 : Nat) - 0 < CACHE_TTL ∧
    (getTenantInfoCalls "ab" (LookupResult.ok (some [])) [] 0).2 +
      (getTenantInfoCalls "ab" (LookupResult.ok (some []))
        (getTenantInfoCalls "ab" (LookupResult.ok (some [])) [] 0).1.2 10).2 ≤ 1 :=
  ⟨by decide,
    getTenantInfo_cache_idempotent "ab" (LookupResult.ok (some [])) [] 0 10
      (by decide) (Or.inr (Or.inl rfl))⟩

/-- C7: the validator rejects every string shorter than 2 characters or
longer than 50, every string beginning or ending with a hyphen, and
every reserved word, case-insensitively. -/
theorem isValidSubdomain_rejections (s : String)
    (h : s.length < 2 ∨ 50 < s.length ∨ s.data.headD 'a' = '-' ∨
        s.data.getLastD 'a' = '-' ∨
        reservedSubdomains.contains (strToLower s) = true) :
    isValidSubdomain s = false := by
  unfold isValidSubdomain
  split
  · rfl
  next hne =>
    split
    · rfl
    next hlen =>
      split
      · rfl
      next hregex =>
        split
        · rfl
        next hres =>
          exfalso
          simp only [Bool.or_eq_true, decide_eq_true_eq, not_or] at hlen
          simp only [Bool.not_eq_true', Bool.not_eq_false] at hregex
          rcases h with h | h | h | h | h
          · exact hlen.1 h
          · exact hlen.2 h
          · rcases hdata : s.data with _ | ⟨c, rest⟩
            · exact hne (String.ext hdata)
            · rw [hdata] at h
              simp only [List.headD_cons] at h
              unfold subdomainRegexTest at hregex
              rw [hdata, h] at hregex
              simp only [Bool.and_eq_true] at hregex
              have : isAlnumChar '-' = false := by decide
              rw [this] at hregex
              exact Bool.false_ne_true hregex.1.1
          · rcases hdata : s.data with _ | ⟨c, rest⟩
            · exact hne (String.ext hdata)
            · rw [hdata] at h
              rw [List.getLastD_cons] at h
              unfold subdomainRegexTest at hregex
              rw [hdata] at hregex
              simp only [Bool.and_eq_true] at hregex
              have hlast := hregex.2
              rw [h] at hlast
              have : isAlnumChar '-' = false := by decide
              rw [this] at hlast
              exact Bool.false_ne_true hlast
          · exact hres h

/-- C7 witness: the reserved word `www` is rejected. -/
theorem isValidSubdomain_rejections_witness :
    (("www" : String).length < 2 ∨ 50 < ("www" : String).length ∨
      ("www" : String).data.headD 'a' = '-' ∨
      ("www" : String).data.getLastD 'a' = '-' ∨
      reservedSubdomains.contains (strToLower "www") = true) ∧
    isValidSubdomain "www" = false :=
  ⟨Or.inr (Or.inr (Or.inr (Or.inr (by decide)))),
    isValidSubdomain_rejections "www"
      (Or.inr (Or.inr (Or.inr (Or.inr (by decide)))))⟩

/-- C6 counterexample: the hostname `app.localhost.com` has 3
dot-separated segments and its first segment `app` is in the exclusion
set, so the claim requires the extractor to return nothing — but the
development-environment branch fires first (the hostname contains
`localhost`) and the extractor returns `demo`. -/
theorem extractSubdomain_segments_cex :
    3 ≤ (strSplit "app.localhost.com" '.').length ∧
    exclusionSet.contains
        (strToLower ((strSplit "app.localhost.com" '.').headD "")) = true ∧
    extractSubdomain (Request.mk (some "app.localhost.com") none none)
      = some "demo" := by decide

/-- Production-rule behaviour of the extractor, shared by several
results below: a non-empty host whose hostname has no local-development
marker and at least 3 dot-separated segments yields the first segment,
filtered through the exclusion set. -/
theorem extract_production_aux
    (h : String) (fwd q : Option String)
    (hne : h ≠ "")
    (hl1 : strContains ((strSplit h ':').headD "") "localhost" = false)
    (hl2 : strContains ((strSplit h ':').headD "") "127.0.0.1" = false)
    (hseg : 3 ≤ (strSplit ((strSplit h ':').headD "") '.').length) :
    extractSubdomain (Request.mk (some h) fwd q)
      = (if exclusionSet.contains
            (strToLower ((strSplit ((strSplit h ':').headD "") '.').headD ""))
        then none
        else some ((strSplit ((strSplit h ':').headD "") '.').headD "")) := by
  unfold extractSubdomain
  simp only [jsOrStr, if_neg hne]
  have hcond : (strContains ((strSplit h ':').headD "") "localhost"
      || strContains ((strSplit h ':').headD "") "127.0.0.1") = false := by
    rw [hl1, hl2]
    rfl
  simp only [hcond, Bool.false_eq_true, if_false]
  rw [if_pos hseg]

/-- C6 amended: for every request whose (non-empty) host yields a
hostname, after port stripping, that contains neither local-development
marker and has at least 3 dot-separated segments, the extractor returns
the first segment, except that a first segment case-insensitively in
the exclusion set returns nothing. -/
theorem extractSubdomain_production
    (h : String) (fwd q : Option String)
    (hne : h ≠ "")
    (hl1 : strContains ((strSplit h ':').headD "") "localhost" = false)
    (hl2 : strContains ((strSplit h ':').headD "") "127.0.0.1" = false)
    (hseg : 3 ≤ (strSplit ((strSplit h ':').headD "") '.').length) :
    extractSubdomain (Request.mk (some h) fwd q)
      = (if exclusionSet.contains
            (strToLower ((strSplit ((strSplit h ':').headD "") '.').headD ""))
        then none
        else some ((strSplit ((strSplit h ':').headD "") '.').headD "")) :=
  extract_production_aux h fwd q hne hl1 hl2 hseg

/-- C6 amended witness: `acme.example.com` yields `acme`. -/
theorem extractSubdomain_production_witness :
    ("acme.example.com" : String) ≠ "" ∧
    strContains ((strSplit "acme.example.com" ':').headD "") "localhost" = false ∧
    strContains ((strSplit "acme.example.com" ':').headD "") "127.0.0.1" = false ∧
    3 ≤ (strSplit ((strSplit "acme.example.com" ':').headD "") '.').length ∧
    extractSubdomain (Request.mk (some "acme.example.com") none none)
      = (if exclusionSet.contains
            (strToLower
              ((strSplit ((strSplit "acme.example.com" ':').headD "") '.').headD ""))
        then none
        else some ((strSplit ((strSplit "acme.example.com" ':').headD "") '.').headD "")) :=
  ⟨by decide, by decide, by decide, by decide,
    extractSubdomain_production "acme.example.com" none none
      (by decide) (by decide) (by decide) (by decide)⟩

/-- C8: when resolution reaches the context-setting step (a truthy
candidate was extracted, it validated, and an active tenant was found)
and the set-tenant-context remote call fails, `resolveTenant` returns
no tenant and a `TENANT_RESOLUTION_ERROR` error — never the tenant
record. -/
theorem resolveTenant_context_failure
    (req : Request) (lookupRemote : LookupResult) (ctxRemote : CtxResult)
    (cache : Cache) (now : Nat)
    (hctx : ctxRemote = CtxResult.err ∨ ctxRemote = CtxResult.thrown)
    (htruthy : jsTruthy (extractSubdomain req) = true)
    (hvalid : isValidSubdomain ((extractSubdomain req).getD "") = true)
    (hfound : (getTenantInfo ((extractSubdomain req).getD "")
        lookupRemote cache now).1.isSome = true) :
    (resolveTenant req lookupRemote ctxRemote cache now).1
      = { tenant := none, error := some tenantResolutionError } := by
  have hset : setTenantContext ctxRemote = Except.error () := by
    rcases hctx with h | h <;> subst h <;> rfl
  unfold resolveTenant
  simp only [htruthy, hvalid, Bool.not_true, Bool.false_eq_true, if_false]
  rcases hget : getTenantInfo ((extractSubdomain req).getD "")
      lookupRemote cache now with ⟨tval, cache'⟩
  rw [hget] at hfound
  rcases tval with _ | t
  · simp at hfound
  · simp only [hset]

/-- C8 witness: an active tenant is found for `acme.example.com` but the
context-set call fails, so resolution fails with
`TENANT_RESOLUTION_ERROR`. -/
theorem resolveTenant_context_failure_witness :
    (CtxResult.err = CtxResult.err ∨ CtxResult.err = CtxResult.thrown) ∧
    jsTruthy (extractSubdomain (Request.mk (some "acme.example.com") none none))
      = true ∧
    isValidSubdomain
      ((extractSubdomain (Request.mk (some "acme.example.com") none none)).getD "")
      = true ∧
    (getTenantInfo
        ((extractSubdomain (Request.mk (some "acme.example.com") none none)).getD "")
        (LookupResult.ok (some [TenantRow.mk "t1" "Acme" "active" none])) [] 0).1.isSome
      = true ∧
    (resolveTenant (Request.mk (some "acme.example.com") none none)
        (LookupResult.ok (some [TenantRow.mk "t1" "Acme" "active" none]))
        CtxResult.err [] 0).1
      = { tenant := none, error := some tenantResolutionError } :=
  ⟨Or.inl rfl, by decide, by decide, by decide,
    resolveTenant_context_failure (Request.mk (some "acme.example.com") none none)
      (LookupResult.ok (some [TenantRow.mk "t1" "Acme" "active" none]))
      CtxResult.err [] 0 (Or.inl rfl) (by decide) (by decide) (by decide)⟩

/-- Every record stored in a well-formed cache under any key is
active. -/
theorem cacheGet_wf (cache : Cache) (key : String) (e : CacheEntry)
    (hwf : cacheWF cache = true) (hget : cacheGet cache key = some e)
    (t : TenantInfo) (hd : e.data = some t) : t.status = "active" := by
  induction cache with
  | nil => simp [cacheGet] at hget
  | cons p rest ih =>
    obtain ⟨k, e'⟩ := p
    rw [cacheWF, List.all_cons, Bool.and_eq_true] at hwf
    unfold cacheGet at hget
    by_cases hk : k = key
    · rw [if_pos hk] at hget
      injection hget with hge
      subst hge
      have h1 := hwf.1
      rw [hd] at h1
      simpa using h1
    · rw [if_neg hk] at hget
      exact ih hwf.2 hget

/-- A value the fetch path returns is always an active record. -/
theorem getTenantInfoFetch_some_active (subdomain : String)
    (remote : LookupResult) (cache : Cache) (now : Nat) (t : TenantInfo)
    (h : (getTenantInfoFetch subdomain remote cache now).1 = some t) :
    t.status = "active" := by
  unfold getTenantInfoFetch at h
  rcases remote with _ | _ | data
  · simp at h
  · simp at h
  · rcases data with _ | ⟨_ | ⟨row, rest⟩⟩
    · simp at h
    · simp at h
    · by_cases hs : row.tenant_status = "active"
      · simp only [hs, ne_eq, not_true_eq_false, Bool.false_eq_true, if_false] at h
        injection h with ht
        rw [← ht, mkTenantInfo, hs]
      · simp [hs] at h

/-- A value `getTenantInfo` returns from a well-formed cache is always
an active record. -/
theorem getTenantInfo_some_active (subdomain : String) (remote : LookupResult)
    (cache : Cache) (now : Nat) (t : TenantInfo)
    (hwf : cacheWF cache = true)
    (h : (getTenantInfo subdomain remote cache now).1 = some t) :
    t.status = "active" := by
  unfold getTenantInfo at h
  rcases hget : cacheGet cache (cacheKeyOf subdomain) with _ | e
  · rw [hget] at h
    exact getTenantInfoFetch_some_active subdomain remote cache now t h
  · rw [hget] at h
    dsimp only at h
    by_cases hf : now - e.timestamp < CACHE_TTL
    · rw [if_pos hf] at h
      exact cacheGet_wf cache (cacheKeyOf subdomain) e hwf hget t h
    · rw [if_neg hf] at h
      exact getTenantInfoFetch_some_active subdomain remote cache now t h

/-- Writing an entry whose record (if any) is active preserves cache
well-formedness. -/
theorem cacheWF_cacheSet (cache : Cache) (key : String) (e : CacheEntry)
    (hwf : cacheWF cache = true)
    (he : ∀ t, e.data = some t → t.status = "active") :
    cacheWF (cacheSet cache key e) = true := by
  unfold cacheWF at hwf ⊢
  rw [cacheSet, List.all_cons, Bool.and_eq_true]
  constructor
  · rcases hd : e.data with _ | t
    · simp [hd]
    · simp only [hd]
      exact decide_eq_true (he t hd)
  · rw [List.all_eq_true] at hwf ⊢
    intro p hp
    exact hwf p (List.mem_of_mem_filter hp)

/-- The lookup service preserves cache well-formedness: it only ever
stores "not found" or an active record. This justifies restricting the
caller-facing invariant below to well-formed caches. -/
theorem getTenantInfo_preserves_cacheWF (subdomain : String)
    (remote : LookupResult) (cache : Cache) (now : Nat)
    (hwf : cacheWF cache = true) :
    cacheWF (getTenantInfo subdomain remote cache now).2 = true := by
  unfold getTenantInfo
  rcases hget : cacheGet cache (cacheKeyOf subdomain) with _ | e
  case some =>
    dsimp only
    by_cases hf : now - e.timestamp < CACHE_TTL
    · rw [if_pos hf]
      exact hwf
    · rw [if_neg hf]
      rcases remote with _ | _ | ⟨_ | ⟨_ | ⟨row, rest⟩⟩⟩
      · exact hwf
      · exact hwf
      · exact cacheWF_cacheSet cache _ _ hwf (by intro t h; simp at h)
      · exact cacheWF_cacheSet cache _ _ hwf (by intro t h; simp at h)
      · unfold getTenantInfoFetch
        by_cases hs : row.tenant_status = "active"
        · simp only [hs, ne_eq, not_true_eq_false, Bool.false_eq_true, if_false]
          refine cacheWF_cacheSet cache _ _ hwf ?_
          intro t h
          injection h with h
          rw [← h, mkTenantInfo, hs]
        · dsimp only
          rw [if_pos hs]
          exact hwf
  case none =>
    dsimp only
    rcases remote with _ | _ | ⟨_ | ⟨_ | ⟨row, rest⟩⟩⟩
    · exact hwf
    · exact hwf
    · exact cacheWF_cacheSet cache _ _ hwf (by intro t h; simp at h)
    · exact cacheWF_cacheSet cache _ _ hwf (by intro t h; simp at h)
    · unfold getTenantInfoFetch
      by_cases hs : row.tenant_status = "active"
      · simp only [hs, ne_eq, not_true_eq_false, Bool.false_eq_true, if_false]
        refine cacheWF_cacheSet cache _ _ hwf ?_
        intro t h
        injection h with h
        rw [← h, mkTenantInfo, hs]
      · dsimp only
        rw [if_pos hs]
        exact hwf

/-- C9: with a well-formed cache (the only kind the lookup service ever
produces), `resolveTenant` hands a tenant record to the caller only
when its status is `active`; and when the lookup is issued and the
remote returns a record whose status is not `active`, resolution ends
exactly as for an absent tenant: no tenant and a `TENANT_NOT_FOUND`
error. -/
theorem resolveTenant_active_only
    (req : Request) (lookupRemote : LookupResult) (ctxRemote : CtxResult)
    (cache : Cache) (now : Nat)
    (hwf : cacheWF cache = true) :
    (∀ t, (resolveTenant req lookupRemote ctxRemote cache now).1.tenant = some t →
      t.status = "active") ∧
    (∀ s row rest, extractSubdomain req = some s → s ≠ "" →
      isValidSubdomain s = true →
      cacheFresh cache (cacheKeyOf s) now = false →
      lookupRemote = LookupResult.ok (some (row :: rest)) →
      row.tenant_status ≠ "active" →
      (resolveTenant req lookupRemote ctxRemote cache now).1
        = { tenant := none, error := some (tenantNotFoundError s) }) := by
  constructor
  · intro t ht
    unfold resolveTenant at ht
    by_cases h1 : jsTruthy (extractSubdomain req) = true
    · by_cases h2 : isValidSubdomain ((extractSubdomain req).getD "") = true
      · rcases hget : getTenantInfo ((extractSubdomain req).getD "")
            lookupRemote cache now with ⟨tval, cache'⟩
        simp only [h1, h2, Bool.not_true, Bool.false_eq_true, if_false, hget] at ht
        rcases tval with _ | t'
        · simp at ht
        · rcases hctx : setTenantContext ctxRemote with _ | _
          · rw [hctx] at ht
            simp at ht
          · rw [hctx] at ht
            have htv : t' = t := by simpa using ht
            subst htv
            exact getTenantInfo_some_active _ lookupRemote cache now t' hwf
              (by rw [hget])
      · rw [Bool.not_eq_true] at h2
        simp only [h2, Bool.not_false, if_true] at ht
        simp [h1] at ht
    · rw [Bool.not_eq_true] at h1
      simp only [h1, Bool.not_false, if_true] at ht
      simp at ht
  · intro s row rest hex hsne hval hmiss hlr hinact
    have hfetch : getTenantInfo s lookupRemote cache now = (none, cache) := by
      rw [getTenantInfo_of_not_fresh s lookupRemote cache now hmiss, hlr]
      unfold getTenantInfoFetch
      simp [hinact]
    have htr : jsTruthy (some s) = true := by simp [jsTruthy, hsne]
    unfold resolveTenant
    rw [hex]
    simp only [htr, Bool.not_true, Bool.false_eq_true, if_false, Option.getD_some,
      hval, hfetch]

/-- C9 witness: a suspended record resolves to `TENANT_NOT_FOUND` on an
empty (well-formed) cache. -/
theorem resolveTenant_active_only_witness :
    cacheWF [] = true ∧
    (resolveTenant (Request.mk (some "go.example.com") none none)
        (LookupResult.ok (some [TenantRow.mk "t2" "Go" "suspended" none]))
        CtxResult.ok [] 0).1
      = { tenant := none, error := some (tenantNotFoundError "go") } :=
  ⟨by decide,
    (resolveTenant_active_only (Request.mk (some "go.example.com") none none)
        (LookupResult.ok (some [TenantRow.mk "t2" "Go" "suspended" none]))
        CtxResult.ok [] 0 (by decide)).2
      "go" (TenantRow.mk "t2" "Go" "suspended" none) []
      (by decide) (by decide) (by decide) (by decide) rfl (by decide)⟩

/-- C10: a production hostname whose first dot-separated segment is
empty makes the extractor return the empty string, and `resolveTenant`
treats that empty candidate exactly like a missing one: no tenant, an
`INVALID_SUBDOMAIN` error (not `INVALID_SUBDOMAIN_FORMAT`), and a
result identical to that of a request with no host at all. -/
theorem resolveTenant_empty_first_segment
    (h : String) (fwd q : Option String) (lookupRemote : LookupResult)
    (ctxRemote : CtxResult) (cache : Cache) (now : Nat)
    (hne : h ≠ "")
    (hl1 : strContains ((strSplit h ':').headD "") "localhost" = false)
    (hl2 : strContains ((strSplit h ':').headD "") "127.0.0.1" = false)
    (hseg : 3 ≤ (strSplit ((strSplit h ':').headD "") '.').length)
    (hfirst : (strSplit ((strSplit h ':').headD "") '.').headD "x" = "") :
    extractSubdomain (Request.mk (some h) fwd q) = some "" ∧
    (resolveTenant (Request.mk (some h) fwd q) lookupRemote ctxRemote cache now).1
      = { tenant := none, error := some invalidSubdomainError } ∧
    resolveTenant (Request.mk (some h) fwd q) lookupRemote ctxRemote cache now
      = resolveTenant (Request.mk none none none) lookupRemote ctxRemote cache now := by
  have hparts : (strSplit ((strSplit h ':').headD "") '.').headD "" = "" := by
    rcases hsp : strSplit ((strSplit h ':').headD "") '.' with _ | ⟨p0, rest⟩
    · rw [hsp] at hseg
      simp at hseg
    · rw [hsp] at hfirst
      simpa using hfirst
  have hex : extractSubdomain (Request.mk (some h) fwd q) = some "" := by
    rw [extract_production_aux h fwd q hne hl1 hl2 hseg, hparts]
    decide
  have hsome : resolveTenant (Request.mk (some h) fwd q) lookupRemote ctxRemote cache now
      = ({ tenant := none, error := some invalidSubdomainError }, cache) := by
    unfold resolveTenant
    rw [hex]
    exact rfl
  have hnone : resolveTenant (Request.mk none none none) lookupRemote ctxRemote cache now
      = ({ tenant := none, error := some invalidSubdomainError }, cache) := rfl
  exact ⟨hex, by rw [hsome], by rw [hsome, hnone]⟩

/-- C10 witness: the hostname `.example.com`. -/
theorem resolveTenant_empty_first_segment_witness :
    (".example.com" : String) ≠ "" ∧
    strContains ((strSplit ".example.com" ':').headD "") "localhost" = false ∧
    strContains ((strSplit ".example.com" ':').headD "") "127.0.0.1" = false ∧
    3 ≤ (strSplit ((strSplit ".example.com" ':').headD "") '.').length ∧
    (strSplit ((strSplit ".example.com" ':').headD "") '.').headD "x" = "" ∧
    extractSubdomain (Request.mk (some ".example.com") none none) = some "" ∧
    (resolveTenant (Request.mk (some ".example.com") none none)
        (LookupResult.ok (some [])) CtxResult.ok [] 0).1
      = { tenant := none, error := some invalidSubdomainError } :=
  ⟨by decide, by decide, by decide, by decide, by decide,
    (resolveTenant_empty_first_segment ".example.com" none none
        (LookupResult.ok (some [])) CtxResult.ok [] 0
        (by decide) (by decide) (by decide) (by decide) (by decide)).1,
    (resolveTenant_empty_first_segment ".example.com" none none
        (LookupResult.ok (some [])) CtxResult.ok [] 0
        (by decide) (by decide) (by decide) (by decide) (by decide)).2.1⟩

example :
  (resolveTenant ⟨some "acme.example.com", none, none⟩
      (LookupResult.ok (some [⟨"t1", "Acme", "active", none⟩])) CtxResult.ok [] 0).1
    = { tenant := some ⟨"t1", "acme", "Acme", "active", []⟩, error := none } := by decide
example :
  (resolveTenant ⟨some "go.example.com", none, none⟩
      (LookupResult.ok (some [⟨"t2", "Go", "suspended", none⟩])) CtxResult.ok [] 0).1
    = { tenant := none, error := some (tenantNotFoundError "go") } := by decide
example :
  (resolveTenant ⟨some "www.example.com", none, none⟩
      (LookupResult.ok (some [])) CtxResult.ok [] 0).1
    = { tenant := none, error := some invalidSubdomainError } := by decide
example :
  (resolveTenant ⟨some "acme.example.com", none, none⟩
      (LookupResult.ok (some [⟨"t1", "Acme", "active", none⟩])) CtxResult.err [] 0).1
    = { tenant := none, error := some tenantResolutionError } := by decide
